import Mathlib

/-!
Shallow embedding of the algorithmic cores of the llm-hub repository,
with theorems settling the frozen claims about its specification.

Embedded components:
* `src/units/lm-studio-bridge/logic/http_client.py` — circuit breaker and
  retry loop of `LMStudioClient` (`CB`, `checkCircuitBreaker`,
  `recordSuccess`, `recordFailure`, `runAttempts`, `makeRequest`).
* `src/units/lm-studio-bridge/logic/discovery.py` — registry diff of
  `ModelDiscovery._discover_models` and the wait computation of
  `_polling_loop`.
* `src/units/lm-studio-bridge/logic/recovery_manager.py` —
  `RecoveryManager.handle_error` and `_identify_error_pattern`.
* `src/units/health-monitor/predictive_maintenance.py` —
  `PredictiveMaintenance._calculate_trend` and the memory-cleanup rule of
  `_analyze_patterns`.
* `src/units/unified-gateway/logic/router.py` and `discovery_client.py` —
  `RequestRouter.route_tool_request`, `_forward_request`,
  `ServiceDiscovery.get_service_for_tool`.
* `src/units/unified-gateway/logic/aggregator.py` —
  `ResponseAggregator.aggregate_responses` and its helpers.

Event-loop timestamps are embedded as integers (`Int`); metric values and
sample timestamps of the predictive-maintenance monitor as rationals (`ℚ`).
-/

namespace LlmHub

/-! ## Upstream client circuit breaker (`http_client.py`) -/

/-- Circuit-breaker and connection state of `LMStudioClient`
(`_circuit_breaker_failures`, `_circuit_breaker_last_failure`,
`_is_circuit_open`, `_connection_healthy`, `_last_successful_request`). -/
structure CB where
  failures : Nat
  lastFailure : Int
  isOpen : Bool
  healthy : Bool
  lastSuccess : Int
deriving DecidableEq, Repr

/-- `LMStudioClient._circuit_breaker_threshold` (default 5). -/
def cbThreshold : Nat := 5

/-- `LMStudioClient._circuit_breaker_timeout` (cool-off, default 60s). -/
def cbCoolOff : Int := 60

/-- `LMStudioClient._check_circuit_breaker`: if the circuit is open and
strictly more than the cool-off has elapsed since the last failure, close
the circuit and reset the failure counter; return whether requests are
allowed together with the updated state. -/
def checkCircuitBreaker (now : Int) (s : CB) : Bool × CB :=
  let s' := if s.isOpen ∧ now - s.lastFailure > cbCoolOff then
    { s with isOpen := false, failures := 0 }
  else s
  (!s'.isOpen, s')

/-- `LMStudioClient._record_success`. -/
def recordSuccess (now : Int) (s : CB) : CB :=
  { s with healthy := true, lastSuccess := now, failures := 0, isOpen := false }

/-- `LMStudioClient._record_failure`: increment the counter, stamp the
failure time, and open the circuit once the counter reaches the threshold. -/
def recordFailure (now : Int) (s : CB) : CB :=
  let s' := { s with healthy := false, failures := s.failures + 1, lastFailure := now }
  if s'.failures ≥ cbThreshold then { s' with isOpen := true } else s'

/-- Fold of `_record_failure` over a list of failure timestamps. -/
def recordFailures (ts : List Int) (s : CB) : CB :=
  ts.foldl (fun acc t => recordFailure t acc) s

/-- Outcome of one HTTP attempt inside `_make_request`: a 2xx success,
an `httpx.HTTPStatusError` with the given status code (raised by
`raise_for_status` for 4xx/5xx), or an `httpx.RequestError` /
`httpx.TimeoutException` (transport error or timeout). -/
inductive Outcome where
  | success
  | httpError (status : Nat)
  | transportFailed
deriving DecidableEq, Repr

/-- Result of `_make_request`: parsed response, fail-fast `NetworkError`
for an open circuit (carrying the failure count put in its details), or
`NetworkError` after the attempt loop ends without success. -/
inductive ReqResult where
  | ok
  | circuitOpen (failures : Nat)
  | exhausted
deriving DecidableEq, Repr

/-- The retry loop of `_make_request` (`for attempt in range(max_retries+1)`),
as a recursion over the timeline of attempt outcomes, each paired with the
event-loop time at which its success/failure is recorded. Returns the
result, the final breaker state, and the number of attempts issued.
A 4xx status other than 429 records a failure and `break`s (terminal);
other statuses and transport errors record a failure and continue while
`attempt < max_retries`. -/
def runAttempts (maxRetries : Nat) (attempt : Nat) (s : CB) :
    List (Int × Outcome) → ReqResult × CB × Nat
  | [] => (.exhausted, s, 0)
  | (t, o) :: rest =>
    match o with
    | .success => (.ok, recordSuccess t s, 1)
    | .httpError code =>
      if 400 ≤ code ∧ code < 500 ∧ code ≠ 429 then
        (.exhausted, recordFailure t s, 1)
      else
        let s' := recordFailure t s
        if attempt < maxRetries then
          let r := runAttempts maxRetries (attempt + 1) s' rest
          (r.1, r.2.1, r.2.2 + 1)
        else (.exhausted, s', 1)
    | .transportFailed =>
      let s' := recordFailure t s
      if attempt < maxRetries then
        let r := runAttempts maxRetries (attempt + 1) s' rest
        (r.1, r.2.1, r.2.2 + 1)
      else (.exhausted, s', 1)

/-- `LMStudioClient._make_request`: consult the circuit breaker at time
`now`; when it denies, fail fast with zero HTTP attempts; otherwise run
the retry loop over the attempt timeline. -/
def makeRequest (maxRetries : Nat) (now : Int) (s : CB)
    (timeline : List (Int × Outcome)) : ReqResult × CB × Nat :=
  let c := checkCircuitBreaker now s
  if c.1 then runAttempts maxRetries 0 c.2 timeline
  else (.circuitOpen c.2.failures, c.2, 0)

/-- Breaker state of a fresh `LMStudioClient`. -/
def cbInit : CB := { failures := 0, lastFailure := 0, isOpen := false,
                     healthy := true, lastSuccess := 0 }

/-- A breaker state that has just opened: five recorded failures, the last
at time 0. -/
def sOpenAt0 : CB := { failures := 5, lastFailure := 0, isOpen := true,
                       healthy := false, lastSuccess := 0 }

/-! ## Capability discovery (`discovery.py`) -/

/-- One entry of the catalog returned by `LMStudioClient.get_models`:
the optional `"id"` field plus an opaque metadata blob distinguishing
versions of the same record. -/
structure Entry where
  id : Option String
  blob : Nat
deriving DecidableEq, Repr

/-- The id under which `_discover_models` files an entry: `model_data.get("id")`
followed by `if not model_id: continue`, which also skips a present-but-empty
id (falsy in Python). -/
def validId (e : Entry) : Option String :=
  match e.id with
  | none => none
  | some i => if i = "" then none else some i

/-- Python-dict insertion for the `self.models[model_id] = model_data`
assignments: update in place when the key exists, else append. -/
def dictInsert (m : List (String × Entry)) (k : String) (v : Entry) :
    List (String × Entry) :=
  if m.any (fun p => p.1 = k) then
    m.map (fun p => if p.1 = k then (k, v) else p)
  else m ++ [(k, v)]

/-- Added/removed registry events, standing for the
`_handle_model_added` / `_handle_model_removed` log lines. -/
inductive Event where
  | added (id : String)
  | removed (id : String)
deriving DecidableEq, Repr

/-- Registry state of `ModelDiscovery`: the `models` dict and the
`model_ids` set (embedded as an insertion-ordered duplicate-free list;
only membership is ever queried). -/
structure DState where
  models : List (String × Entry)
  modelIds : List String
deriving DecidableEq, Repr

/-- The `for model_data in models_data` loop of `_discover_models`:
accumulates `current_model_ids`, the updated `models` dict, and the added
events. The membership test deciding an "added" event is against the old
`self.model_ids`, which is not touched inside the loop. -/
def discoverLoop (oldIds : List String) :
    List Entry → List String → List (String × Entry) → List Event →
    List String × List (String × Entry) × List Event
  | [], cur, m, evs => (cur, m, evs)
  | e :: rest, cur, m, evs =>
    match validId e with
    | none => discoverLoop oldIds rest cur m evs
    | some i =>
      let cur' := if i ∈ cur then cur else cur ++ [i]
      let m' := dictInsert m i e
      let evs' := if i ∈ oldIds then evs else evs ++ [Event.added i]
      discoverLoop oldIds rest cur' m' evs'

/-- `ModelDiscovery._discover_models` (also the body run by
`force_discovery`): process the fetched catalog, delete the registry
entries whose ids vanished (`removed_models = self.model_ids -
current_model_ids`, one removed event each), and set `model_ids` to
exactly the current id set. -/
def discoverModels (s : DState) (catalog : List Entry) : DState × List Event :=
  let r := discoverLoop s.modelIds catalog [] s.models []
  let removed := s.modelIds.filter (fun i => i ∉ r.1)
  let models' := r.2.1.filter (fun p => p.1 ∉ removed)
  (⟨models', r.1⟩, r.2.2 ++ removed.map Event.removed)

/-- One pass of the `_polling_loop` body: given the consecutive-failure
count, whether the discovery cycle succeeded, whether the recovery attempt
(run only at ≥3 consecutive failures) succeeded, and the extra throttle
delay, return the new consecutive-failure count and the total wait before
the next cycle. A failed recovery sleeps `min(2*base, 300) - base` (clamped
at 0, as a negative `asyncio.sleep` does not wait) and then falls through
to the normal `base + throttle` wait. -/
def pollIter (base : Nat) (cf : Nat) (cycleOk recoveryOk : Bool)
    (throttle : Nat) : Nat × Nat :=
  if cycleOk then (0, base + throttle)
  else
    let cf' := cf + 1
    if 3 ≤ cf' then
      if recoveryOk then (0, base + throttle)
      else (cf', (min (2 * base) 300 - base) + (base + throttle))
    else (cf', base + throttle)

/-- A run of the polling loop over a list of (cycle outcome, recovery
outcome) pairs, starting from consecutive-failure count `cf`; yields the
wait chosen after each cycle. -/
def pollRun (base : Nat) : Nat → List (Bool × Bool) → List Nat
  | _, [] => []
  | cf, (c, r) :: rest =>
    let step := pollIter base cf c r 0
    step.2 :: pollRun base step.1 rest

/-! ## Recovery manager (`recovery_manager.py`) -/

/-- Auxiliary for Python's substring operator `in`: does the pattern occur
as a contiguous run of the text? -/
def subAux (pat : List Char) : List Char → Bool
  | [] => pat.isEmpty
  | t@(_ :: rest) => pat.isPrefixOf t || subAux pat rest

/-- Python `pat in s` on strings. -/
def containsSub (s pat : String) : Bool := subAux pat.toList s.toList

/-- `RecoveryManager._recovery_cooldown` (60s). -/
def recoveryCooldown : Int := 60

/-- `RecoveryManager._max_recovery_attempts` (5). -/
def maxRecoveryAttempts : Nat := 5

/-- `RecoveryManager._identify_error_pattern`: lowercase the error message
and match substrings in order; a `NetworkError` instance that matched no
substring is `network_error`, anything else `generic`. -/
def classifyError (isNetworkErr : Bool) (msg : String) : String :=
  let s := msg.toLower
  if containsSub s "connection refused" then "connection_refused"
  else if containsSub s "timeout" then "timeout"
  else if containsSub s "service unavailable" || containsSub s "503" then
    "service_unavailable"
  else if containsSub s "circuit breaker" then "circuit_breaker"
  else if isNetworkErr then "network_error"
  else "generic"

/-- State owned by `RecoveryManager` plus the predictive-maintenance error
log it forwards to (`PredictiveMaintenance._error_history`, a list of
(timestamp, pattern) pairs appended by `record_error`). -/
structure RecState where
  attempts : Nat
  lastTime : Int
  errorLog : List (Int × String)
deriving DecidableEq, Repr

/-- `RecoveryManager.handle_error`: return failure when the cooldown is
active or the attempt limit is reached (in both cases without touching the
error log); otherwise forward the classified pattern to the
predictive-maintenance error log, bump the attempt counter and timestamp,
and run the strategy, whose success (`strategyOk`) resets the counter. -/
def handleError (st : RecState) (now : Int) (isNetworkErr : Bool)
    (msg : String) (strategyOk : Bool) : Bool × RecState :=
  if now - st.lastTime < recoveryCooldown then (false, st)
  else if maxRecoveryAttempts ≤ st.attempts then (false, st)
  else
    let st1 := { st with
      errorLog := st.errorLog ++ [(now, classifyError isNetworkErr msg)] }
    let st2 := { st1 with attempts := st1.attempts + 1, lastTime := now }
    if strategyOk then (true, { st2 with attempts := 0 }) else (false, st2)

/-! ## Predictive maintenance (`predictive_maintenance.py`)

Sample timestamps are embedded as integers, sample values as rationals. -/

/-- `PredictiveMaintenance._min_data_points` (5). -/
def minDataPoints : Nat := 5

/-- `PredictiveMaintenance._memory_growth_threshold` (5 %/hour). -/
def memoryGrowthThreshold : ℚ := 5

/-- The window filter of `_calculate_trend`:
`[(t, v) for t, v in data if t > current_time - window_seconds]`. -/
def windowData (data : List (Int × ℚ)) (windowSeconds now : Int) :
    List (Int × ℚ) :=
  data.filter (fun p => p.1 > now - windowSeconds)

/-- `PredictiveMaintenance._calculate_trend`: 0 when the whole buffer has
fewer than `_min_data_points` samples, or fewer than two samples fall in
the window, or the first and last in-window samples coincide in time;
otherwise (last value − first value) / (last time − first time) × 3600,
whatever the window length — the result is always per hour. -/
def calculateTrend (data : List (Int × ℚ)) (windowSeconds now : Int) : ℚ :=
  if data.length < minDataPoints then 0
  else
    let wd := windowData data windowSeconds now
    if wd.length < 2 then 0
    else
      let times := wd.map Prod.fst
      let values := wd.map Prod.snd
      if times.length < 2 then 0
      else
        let timeSpan := times.getLastD 0 - times.headD 0
        if timeSpan = 0 then 0
        else
          let valueChange := values.getLastD 0 - values.headD 0
          valueChange / (timeSpan : ℚ) * 3600

/-- The memory rule of `_analyze_patterns`: a cleanup is triggered exactly
when the 1h memory trend exceeds `_memory_growth_threshold`. -/
def memoryCleanupTriggered (data : List (Int × ℚ)) (now : Int) : Prop :=
  calculateTrend data 3600 now > memoryGrowthThreshold

/-- The trend formula exactly as the claim words it: (last value − first
value among samples inside the window) divided by the window length in
seconds, multiplied by the stated factor (3600 for the per-hour trends,
86400 for the per-day disk trend); 0 whenever fewer than 5 samples are
available. Written from the claim, for comparison against
`calculateTrend`, which is embedded from the source. -/
def claimedTrend (data : List (Int × ℚ)) (windowSeconds now : Int)
    (factor : ℚ) : ℚ :=
  if data.length < 5 then 0
  else
    let wd := windowData data windowSeconds now
    ((wd.map Prod.snd).getLastD 0 - (wd.map Prod.snd).headD 0)
      / (windowSeconds : ℚ) * factor

/-! ## Gateway registry and router (`discovery_client.py`, `router.py`) -/

/-- One `ServiceRegistryEntry` as stored by
`ServiceDiscovery._update_service_registry`: the service url, the key set
of the stored tools dict, and the healthy flag. -/
structure ServiceInfo where
  url : String
  tools : List String
  healthy : Bool
deriving DecidableEq, Repr

/-- `ServiceDiscovery.get_service_for_tool`: first registry entry that is
healthy and whose tools contain the name; `None` otherwise. -/
def getServiceForTool : List ServiceInfo → String → Option String
  | [], _ => none
  | si :: rest, toolName =>
    if si.healthy = true ∧ toolName ∈ si.tools then some si.url
    else getServiceForTool rest toolName

/-- What the forwarded POST comes back with: an HTTP response with status
and body, an `httpx.TimeoutException`, or any other exception. -/
inductive ForwardOutcome where
  | ok (status : Nat) (body : String)
  | timedOut
  | transportFailed
deriving DecidableEq, Repr

/-- The structured status object returned by the router. -/
structure RouteResult where
  status : String
  result : Option String
  service : Option String
  error : Option String
deriving DecidableEq, Repr

/-- The `httpx.AsyncClient(timeout=30.0)` constant of
`RequestRouter._forward_request`. -/
def routerTimeoutSeconds : Nat := 30

/-- The target URL built by `_forward_request`:
`f"{service_url}/mcp/tools/{tool_name}"`. -/
def targetUrl (serviceUrl toolName : String) : String :=
  serviceUrl ++ "/mcp/tools/" ++ toolName

/-- `RequestRouter._forward_request`, parameterized by the network's
response `respond` to the posted (target URL, parameters): HTTP 200 maps
to `success` carrying the body, any other status to `service_error`, a
timeout to `timeout`, any other exception to `forward_error`. -/
def forwardRequest (serviceUrl toolName params : String)
    (respond : String → String → ForwardOutcome) : RouteResult :=
  match respond (targetUrl serviceUrl toolName) params with
  | .ok s body =>
    if s = 200 then ⟨"success", some body, some serviceUrl, none⟩
    else ⟨"service_error", none, some serviceUrl,
          some ("Service returned " ++ toString s)⟩
  | .timedOut => ⟨"timeout", none, some serviceUrl, some "Service timeout"⟩
  | .transportFailed =>
    ⟨"forward_error", none, some serviceUrl, some "Forward failed"⟩

/-- `RequestRouter.route_tool_request`: look the tool up in the registry,
answer `service_not_found` when no healthy entry has it, else forward. -/
def routeToolRequest (registry : List ServiceInfo) (toolName params : String)
    (respond : String → String → ForwardOutcome) : RouteResult :=
  match getServiceForTool registry toolName with
  | none => ⟨"service_not_found", none, none,
             some ("No service available for tool: " ++ toolName)⟩
  | some u => forwardRequest u toolName params respond

/-! ## Response aggregator (`aggregator.py`) -/

/-- A service-call descriptor; only its `"service"` key is ever read
(`call_info.get("service", "unknown")`). -/
structure CallInfo where
  service : Option String
deriving DecidableEq, Repr

/-- Result dict of the aggregator paths. -/
structure AggResult where
  status : String
  result : Option String
  service : Option String
  error : Option String
  errors : List (String × String)
deriving DecidableEq, Repr

/-- `call_info.get("service", "unknown")`. -/
def callService (c : CallInfo) : String := c.service.getD "unknown"

/-- `ResponseAggregator._execute_single_call`: the body is a placeholder
("This would be called by the router. For now, return the call info as
placeholder") that returns a fixed success dict without consulting any
router. -/
def executeSingleCall (c : CallInfo) : AggResult :=
  ⟨"success", some "Single call executed", some (callService c), none, []⟩

/-- `ResponseAggregator._execute_call_with_timeout` around
`_simulate_service_call` (a stub 0.1s sleep, always well inside the 30s
timeout): always a fixed success dict. -/
def executeCallWithTimeout (c : CallInfo) : AggResult :=
  ⟨"success", some "Call executed successfully", some (callService c), none, []⟩

/-- `ResponseAggregator.aggregate_responses`: empty input → `no_calls`;
a single call → `_execute_single_call`; several calls → gather all
simulated calls, return the first whose status is `success`, else
`all_failed` with the per-call errors. -/
def aggregateResponses : List CallInfo → AggResult
  | [] => ⟨"no_calls", none, none, some "No service calls provided", []⟩
  | [c] => executeSingleCall c
  | calls =>
    let results := calls.map executeCallWithTimeout
    match results.find? (fun r => r.status = "success") with
    | some r => r
    | none =>
      ⟨"all_failed", none, none, some "All services failed",
       results.filterMap
         (fun r => r.error.map (fun e => (r.service.getD "unknown", e)))⟩

/-! ## Concrete states used by counterexamples and witnesses -/

/-- Catalog entry with id "A". -/
def entryA : Entry := ⟨some "A", 0⟩

/-- Catalog entry with id "B". -/
def entryB : Entry := ⟨some "B", 0⟩

/-- A fresher catalog entry with id "B" (distinct blob). -/
def entryB2 : Entry := ⟨some "B", 1⟩

/-- Catalog entry with id "C". -/
def entryC : Entry := ⟨some "C", 0⟩

/-- Registry holding exactly models A and B. -/
def regAB : DState := ⟨[("A", entryA), ("B", entryB)], ["A", "B"]⟩

/-- Five memory/disk samples: flat at 50% for 300s, then jumping to 60%
at t = 400. -/
def fiveSamples : List (Int × ℚ) :=
  [(0, 50), (100, 50), (200, 50), (300, 50), (400, 60)]

/-! ## Circuit-breaker lemmas and claims C1, C2, C9 -/

lemma recordFailure_failures (t : Int) (s : CB) :
    (recordFailure t s).failures = s.failures + 1 := by
  unfold recordFailure
  dsimp only
  split <;> rfl

lemma recordFailure_isOpen (t : Int) (s : CB)
    (h : cbThreshold ≤ s.failures + 1) : (recordFailure t s).isOpen = true := by
  unfold recordFailure
  dsimp only
  rw [if_pos h]

lemma recordFailures_isOpen : ∀ (ts : List Int) (s : CB), 1 ≤ ts.length →
    cbThreshold ≤ s.failures + ts.length → (recordFailures ts s).isOpen = true
  | [], _, h, _ => by simp at h
  | [t], s, _, h2 => by
    show (recordFailure t s).isOpen = true
    exact recordFailure_isOpen t s (by simpa using h2)
  | t :: u :: us, s, _, h2 => by
    show (recordFailures (u :: us) (recordFailure t s)).isOpen = true
    apply recordFailures_isOpen (u :: us) (recordFailure t s) (by simp)
    rw [recordFailure_failures]
    simp only [List.length_cons] at h2 ⊢
    omega

lemma checkCircuitBreaker_denied (now : Int) (s : CB) (hOpen : s.isOpen = true)
    (hElapsed : ¬ now - s.lastFailure > cbCoolOff) :
    checkCircuitBreaker now s = (false, s) := by
  unfold checkCircuitBreaker
  dsimp only
  rw [if_neg (by rintro ⟨_, h2⟩; exact hElapsed h2), hOpen]
  rfl

lemma checkCircuitBreaker_reset (now : Int) (s : CB) (hOpen : s.isOpen = true)
    (hElapsed : now - s.lastFailure > cbCoolOff) :
    checkCircuitBreaker now s = (true, { s with isOpen := false, failures := 0 }) := by
  unfold checkCircuitBreaker
  dsimp only
  rw [if_pos ⟨hOpen, hElapsed⟩]
  rfl

lemma runAttempts_success (maxRetries attempt : Nat) (s : CB) (t : Int)
    (rest : List (Int × Outcome)) :
    runAttempts maxRetries attempt s ((t, .success) :: rest) =
      (.ok, recordSuccess t s, 1) := rfl

lemma runAttempts_terminal (maxRetries attempt : Nat) (s : CB) (t : Int)
    (code : Nat) (rest : List (Int × Outcome)) (h4 : 400 ≤ code)
    (h5 : code < 500) (h429 : code ≠ 429) :
    runAttempts maxRetries attempt s ((t, .httpError code) :: rest) =
      (.exhausted, recordFailure t s, 1) := by
  have hcond : 400 ≤ code ∧ code < 500 ∧ code ≠ 429 := ⟨h4, h5, h429⟩
  simp only [runAttempts, if_pos hcond]

lemma runAttempts_retry_http (maxRetries attempt : Nat) (s : CB) (t : Int)
    (code : Nat) (rest : List (Int × Outcome)) (hlt : attempt < maxRetries)
    (hcond : ¬(400 ≤ code ∧ code < 500 ∧ code ≠ 429)) :
    runAttempts maxRetries attempt s ((t, .httpError code) :: rest) =
      ((runAttempts maxRetries (attempt + 1) (recordFailure t s) rest).1,
       (runAttempts maxRetries (attempt + 1) (recordFailure t s) rest).2.1,
       (runAttempts maxRetries (attempt + 1) (recordFailure t s) rest).2.2 + 1) := by
  simp only [runAttempts, if_neg hcond, if_pos hlt]

lemma runAttempts_retry_transport (maxRetries attempt : Nat) (s : CB) (t : Int)
    (rest : List (Int × Outcome)) (hlt : attempt < maxRetries) :
    runAttempts maxRetries attempt s ((t, .transportFailed) :: rest) =
      ((runAttempts maxRetries (attempt + 1) (recordFailure t s) rest).1,
       (runAttempts maxRetries (attempt + 1) (recordFailure t s) rest).2.1,
       (runAttempts maxRetries (attempt + 1) (recordFailure t s) rest).2.2 + 1) := by
  simp only [runAttempts, if_pos hlt]

/-- C1: for every sequence of at least `breaker_threshold` (5) consecutive
recorded failures, the circuit becomes OPEN; and every call made while the
circuit is OPEN before the 60s cool-off has elapsed fails fast with the
`CircuitOpen` error, issuing zero HTTP attempts and leaving the breaker
state untouched. -/
theorem c1_breaker_opens_then_fails_fast :
    (∀ (ts : List Int) (s : CB), cbThreshold ≤ ts.length →
      (recordFailures ts s).isOpen = true) ∧
    (∀ (maxRetries : Nat) (now : Int) (s : CB)
       (timeline : List (Int × Outcome)),
      s.isOpen = true → now - s.lastFailure < cbCoolOff →
      makeRequest maxRetries now s timeline = (.circuitOpen s.failures, s, 0)) := by
  constructor
  · intro ts s h
    refine recordFailures_isOpen ts s ?_ (le_trans h (Nat.le_add_left _ _))
    have : 1 ≤ cbThreshold := by norm_num [cbThreshold]
    omega
  · intro maxRetries now s timeline hOpen hElapsed
    unfold makeRequest
    rw [checkCircuitBreaker_denied now s hOpen (by omega)]
    rfl

/-- Witness for C1 at concrete inputs: five failures open a fresh breaker,
and a call at t = 30 against a breaker opened at t = 0 is rejected
untried. -/
theorem c1_witness :
    (cbThreshold ≤ ([1, 2, 3, 4, 5] : List Int).length ∧
      (recordFailures [1, 2, 3, 4, 5] cbInit).isOpen = true) ∧
    (sOpenAt0.isOpen = true ∧ (30 : Int) - sOpenAt0.lastFailure < cbCoolOff ∧
      makeRequest 3 30 sOpenAt0 [(30, .success)] = (.circuitOpen 5, sOpenAt0, 0)) :=
  ⟨⟨by decide, c1_breaker_opens_then_fails_fast.1 [1, 2, 3, 4, 5] cbInit (by decide)⟩,
   ⟨rfl, by decide,
    c1_breaker_opens_then_fails_fast.2 3 30 sOpenAt0 [(30, .success)] rfl (by decide)⟩⟩

/-- Counterexample to C2 as stated. Breaker opened at t = 0 with 5
failures; cool-off elapsed (call at t = 61). The claim says a failing
attempt reopens the breaker, and that exactly one real attempt is
allowed — but after the cool-off the code closes the breaker and resets
the counter entirely, so a failing attempt leaves it CLOSED (counter 1),
and a full retried call of 3 attempts is allowed. -/
theorem c2_counterexample :
    sOpenAt0.isOpen = true ∧ (61 : Int) - sOpenAt0.lastFailure > cbCoolOff ∧
    (makeRequest 3 61 sOpenAt0 [(61, .httpError 404)]).2.1.isOpen = false ∧
    (makeRequest 3 61 sOpenAt0
      [(61, .transportFailed), (62, .transportFailed), (63, .success)]).2.2 = 3 := by
  decide

/-- C2 as amended: once the circuit is OPEN and the cool-off has strictly
elapsed, the next call first closes the breaker and resets the failure
counter to 0, then runs a full logical call (retries included, not a
single attempt). If the first attempt succeeds the breaker stays closed
with counter 0; if it fails terminally (4xx other than 429) the breaker
stays CLOSED with the counter restarted at 1 — it reopens only when the
counter again reaches the threshold. -/
theorem c2_amended_cooloff_resets_breaker :
    (∀ (now : Int) (s : CB), s.isOpen = true → now - s.lastFailure > cbCoolOff →
      checkCircuitBreaker now s = (true, { s with isOpen := false, failures := 0 })) ∧
    (∀ (maxRetries : Nat) (now t : Int) (s : CB)
       (tl : List (Int × Outcome)),
      s.isOpen = true → now - s.lastFailure > cbCoolOff →
      makeRequest maxRetries now s ((t, .success) :: tl) =
        (.ok, { s with isOpen := false, failures := 0, healthy := true,
                       lastSuccess := t }, 1)) ∧
    (∀ (maxRetries : Nat) (now t : Int) (s : CB)
       (tl : List (Int × Outcome)) (code : Nat),
      s.isOpen = true → now - s.lastFailure > cbCoolOff →
      400 ≤ code → code < 500 → code ≠ 429 →
      makeRequest maxRetries now s ((t, .httpError code) :: tl) =
        (.exhausted, { s with isOpen := false, failures := 1, healthy := false,
                              lastFailure := t }, 1)) := by
  refine ⟨fun now s hOpen hElapsed => checkCircuitBreaker_reset now s hOpen hElapsed,
          fun maxRetries now t s tl hOpen hElapsed => ?_,
          fun maxRetries now t s tl code hOpen hElapsed h4 h5 h429 => ?_⟩
  · unfold makeRequest
    rw [checkCircuitBreaker_reset now s hOpen hElapsed]
    show runAttempts maxRetries 0 { s with isOpen := false, failures := 0 }
      ((t, .success) :: tl) = _
    rw [runAttempts_success]
    rfl
  · unfold makeRequest
    rw [checkCircuitBreaker_reset now s hOpen hElapsed]
    show runAttempts maxRetries 0 { s with isOpen := false, failures := 0 }
      ((t, .httpError code) :: tl) = _
    rw [runAttempts_terminal maxRetries 0 _ t code tl h4 h5 h429]
    unfold recordFailure
    dsimp only
    rw [if_neg (by norm_num [cbThreshold])]

/-- Witness for C2 as amended, at the breaker opened at t = 0 and a call
at t = 61. -/
theorem c2_amended_witness :
    sOpenAt0.isOpen = true ∧ (61 : Int) - sOpenAt0.lastFailure > cbCoolOff ∧
    checkCircuitBreaker 61 sOpenAt0 =
      (true, { sOpenAt0 with isOpen := false, failures := 0 }) ∧
    makeRequest 3 61 sOpenAt0 [(61, .success)] =
      (.ok, { sOpenAt0 with isOpen := false, failures := 0, healthy := true,
                            lastSuccess := 61 }, 1) ∧
    makeRequest 3 61 sOpenAt0 [(61, .httpError 404)] =
      (.exhausted, { sOpenAt0 with isOpen := false, failures := 1,
                                   healthy := false, lastFailure := 61 }, 1) :=
  ⟨rfl, by decide,
   c2_amended_cooloff_resets_breaker.1 61 sOpenAt0 rfl (by decide),
   c2_amended_cooloff_resets_breaker.2.1 3 61 61 sOpenAt0 [] rfl (by decide),
   c2_amended_cooloff_resets_breaker.2.2 3 61 61 sOpenAt0 [] 404 rfl (by decide)
     (by decide) (by decide) (by decide)⟩

/-- C9: a 4xx response other than 429 is terminal — the loop stops after
that attempt with the failure recorded immediately (counter incremented by
one); a transport error/timeout, and an HTTP status that is not a
non-429 4xx (i.e. 5xx or 429), are retried when attempts remain, after
recording the failure; and a fail-fast CircuitOpen rejection leaves the
breaker failure counter unchanged and issues zero HTTP attempts. -/
theorem c9_terminal_and_retryable_classes :
    (∀ (maxRetries attempt : Nat) (s : CB) (t : Int) (code : Nat)
       (rest : List (Int × Outcome)),
      400 ≤ code → code < 500 → code ≠ 429 →
      runAttempts maxRetries attempt s ((t, .httpError code) :: rest) =
        (.exhausted, recordFailure t s, 1) ∧
      (recordFailure t s).failures = s.failures + 1) ∧
    (∀ (maxRetries attempt : Nat) (s : CB) (t : Int)
       (rest : List (Int × Outcome)),
      attempt < maxRetries →
      runAttempts maxRetries attempt s ((t, .transportFailed) :: rest) =
        ((runAttempts maxRetries (attempt + 1) (recordFailure t s) rest).1,
         (runAttempts maxRetries (attempt + 1) (recordFailure t s) rest).2.1,
         (runAttempts maxRetries (attempt + 1) (recordFailure t s) rest).2.2 + 1)) ∧
    (∀ (maxRetries attempt : Nat) (s : CB) (t : Int) (code : Nat)
       (rest : List (Int × Outcome)),
      attempt < maxRetries → ¬(400 ≤ code ∧ code < 500 ∧ code ≠ 429) →
      runAttempts maxRetries attempt s ((t, .httpError code) :: rest) =
        ((runAttempts maxRetries (attempt + 1) (recordFailure t s) rest).1,
         (runAttempts maxRetries (attempt + 1) (recordFailure t s) rest).2.1,
         (runAttempts maxRetries (attempt + 1) (recordFailure t s) rest).2.2 + 1)) ∧
    (∀ (maxRetries : Nat) (now : Int) (s : CB)
       (timeline : List (Int × Outcome)),
      s.isOpen = true → now - s.lastFailure ≤ cbCoolOff →
      (makeRequest maxRetries now s timeline).2.1.failures = s.failures ∧
      (makeRequest maxRetries now s timeline).2.2 = 0) := by
  refine ⟨fun maxRetries attempt s t code rest h4 h5 h429 =>
            ⟨runAttempts_terminal maxRetries attempt s t code rest h4 h5 h429,
             recordFailure_failures t s⟩,
          fun maxRetries attempt s t rest hlt =>
            runAttempts_retry_transport maxRetries attempt s t rest hlt,
          fun maxRetries attempt s t code rest hlt hcond =>
            runAttempts_retry_http maxRetries attempt s t code rest hlt hcond,
          fun maxRetries now s timeline hOpen hElapsed => ?_⟩
  unfold makeRequest
  rw [checkCircuitBreaker_denied now s hOpen (by omega)]
  exact ⟨rfl, rfl⟩

/-- Witness for C9 at concrete inputs: a 404 stops a fresh client's loop
with one failure recorded; a transport error and a 500 are retried; a
rejected call against an open breaker leaves its 5 failures unchanged. -/
theorem c9_witness :
    (runAttempts 3 0 cbInit [((5 : Int), .httpError 404), (6, .success)] =
      (.exhausted, recordFailure 5 cbInit, 1) ∧
     (recordFailure (5 : Int) cbInit).failures = cbInit.failures + 1) ∧
    runAttempts 3 0 cbInit [((5 : Int), .transportFailed), (6, .success)] =
      ((runAttempts 3 1 (recordFailure 5 cbInit) [(6, .success)]).1,
       (runAttempts 3 1 (recordFailure 5 cbInit) [(6, .success)]).2.1,
       (runAttempts 3 1 (recordFailure 5 cbInit) [(6, .success)]).2.2 + 1) ∧
    runAttempts 3 0 cbInit [((5 : Int), .httpError 500), (6, .success)] =
      ((runAttempts 3 1 (recordFailure 5 cbInit) [(6, .success)]).1,
       (runAttempts 3 1 (recordFailure 5 cbInit) [(6, .success)]).2.1,
       (runAttempts 3 1 (recordFailure 5 cbInit) [(6, .success)]).2.2 + 1) ∧
    (makeRequest 3 30 sOpenAt0 [(30, .success)]).2.1.failures = sOpenAt0.failures ∧
    (makeRequest 3 30 sOpenAt0 [(30, .success)]).2.2 = 0 :=
  ⟨c9_terminal_and_retryable_classes.1 3 0 cbInit 5 404 [(6, .success)]
     (by decide) (by decide) (by decide),
   c9_terminal_and_retryable_classes.2.1 3 0 cbInit 5 [(6, .success)] (by decide),
   c9_terminal_and_retryable_classes.2.2.1 3 0 cbInit 5 500 [(6, .success)]
     (by decide) (by decide),
   (c9_terminal_and_retryable_classes.2.2.2 3 30 sOpenAt0 [(30, .success)]
     rfl (by decide)).1,
   (c9_terminal_and_retryable_classes.2.2.2 3 30 sOpenAt0 [(30, .success)]
     rfl (by decide)).2⟩

/-! ## Discovery lemmas and claims C3, C10 -/

lemma mem_insertIdList (cur : List String) (i x : String) :
    x ∈ (if i ∈ cur then cur else cur ++ [i]) ↔ x ∈ cur ∨ x = i := by
  by_cases h : i ∈ cur
  · rw [if_pos h]
    constructor
    · exact Or.inl
    · rintro (hx | rfl)
      · exact hx
      · exact h
  · rw [if_neg h]
    simp [List.mem_append]

lemma dictInsert_keys_mem (m : List (String × Entry)) (k : String) (v : Entry)
    (x : String) :
    x ∈ (dictInsert m k v).map Prod.fst ↔ x ∈ m.map Prod.fst ∨ x = k := by
  unfold dictInsert
  by_cases h : m.any (fun p => p.1 = k)
  · rw [if_pos h]
    have hk : k ∈ m.map Prod.fst := by
      rcases List.any_eq_true.mp h with ⟨p, hp, hpk⟩
      exact List.mem_map.mpr ⟨p, hp, of_decide_eq_true hpk⟩
    have hkeys : (m.map (fun p => if p.1 = k then (k, v) else p)).map Prod.fst
        = m.map Prod.fst := by
      rw [List.map_map]
      apply List.map_congr_left
      intro p _
      dsimp only [Function.comp]
      split
      · rename_i hh
        exact hh.symm
      · rfl
    rw [hkeys]
    constructor
    · exact Or.inl
    · rintro (hx | rfl)
      · exact hx
      · exact hk
  · rw [if_neg h]
    simp [List.mem_append]

lemma discoverLoop_cur_mem (oldIds : List String) :
    ∀ (catalog : List Entry) (cur : List String) (m : List (String × Entry))
      (evs : List Event) (x : String),
      x ∈ (discoverLoop oldIds catalog cur m evs).1 ↔
        x ∈ cur ∨ x ∈ catalog.filterMap validId
  | [], cur, m, evs, x => by simp [discoverLoop]
  | e :: rest, cur, m, evs, x => by
    cases hv : validId e with
    | none =>
      have hstep : discoverLoop oldIds (e :: rest) cur m evs =
          discoverLoop oldIds rest cur m evs := by
        simp [discoverLoop, hv]
      rw [hstep, discoverLoop_cur_mem oldIds rest cur m evs x,
        List.filterMap_cons, hv]
    | some i =>
      have hstep : discoverLoop oldIds (e :: rest) cur m evs =
          discoverLoop oldIds rest (if i ∈ cur then cur else cur ++ [i])
            (dictInsert m i e)
            (if i ∈ oldIds then evs else evs ++ [Event.added i]) := by
        simp [discoverLoop, hv]
      rw [hstep, discoverLoop_cur_mem oldIds rest _ _ _ x,
        List.filterMap_cons, hv, mem_insertIdList]
      simp only [List.mem_cons]
      tauto

lemma discoverLoop_keys_mem (oldIds : List String) :
    ∀ (catalog : List Entry) (cur : List String) (m : List (String × Entry))
      (evs : List Event) (x : String),
      x ∈ (discoverLoop oldIds catalog cur m evs).2.1.map Prod.fst ↔
        x ∈ m.map Prod.fst ∨ x ∈ catalog.filterMap validId
  | [], cur, m, evs, x => by simp [discoverLoop]
  | e :: rest, cur, m, evs, x => by
    cases hv : validId e with
    | none =>
      have hstep : discoverLoop oldIds (e :: rest) cur m evs =
          discoverLoop oldIds rest cur m evs := by
        simp [discoverLoop, hv]
      rw [hstep, discoverLoop_keys_mem oldIds rest cur m evs x,
        List.filterMap_cons, hv]
    | some i =>
      have hstep : discoverLoop oldIds (e :: rest) cur m evs =
          discoverLoop oldIds rest (if i ∈ cur then cur else cur ++ [i])
            (dictInsert m i e)
            (if i ∈ oldIds then evs else evs ++ [Event.added i]) := by
        simp [discoverLoop, hv]
      rw [hstep, discoverLoop_keys_mem oldIds rest _ _ _ x,
        List.filterMap_cons, hv, dictInsert_keys_mem]
      simp only [List.mem_cons]
      tauto

lemma filter_keys_mem (m : List (String × Entry)) (removed : List String)
    (x : String) :
    x ∈ (m.filter (fun p => p.1 ∉ removed)).map Prod.fst ↔
      x ∈ m.map Prod.fst ∧ x ∉ removed := by
  simp only [List.mem_map, List.mem_filter, decide_eq_true_eq]
  constructor
  · rintro ⟨p, ⟨hpm, hq⟩, rfl⟩
    exact ⟨⟨p, hpm, rfl⟩, hq⟩
  · rintro ⟨⟨p, hpm, rfl⟩, hx⟩
    exact ⟨p, ⟨hpm, hx⟩, rfl⟩

lemma discoverLoop_filter_valid (oldIds : List String) :
    ∀ (catalog : List Entry) (cur : List String) (m : List (String × Entry))
      (evs : List Event),
      discoverLoop oldIds (catalog.filter (fun e => (validId e).isSome)) cur m evs
        = discoverLoop oldIds catalog cur m evs
  | [], _, _, _ => rfl
  | e :: rest, cur, m, evs => by
    cases hv : validId e with
    | none =>
      rw [List.filter_cons]
      simp only [hv, Option.isSome_none, Bool.false_eq_true, if_false]
      rw [discoverLoop_filter_valid oldIds rest cur m evs]
      have hstep : discoverLoop oldIds (e :: rest) cur m evs =
          discoverLoop oldIds rest cur m evs := by
        simp [discoverLoop, hv]
      rw [hstep]
    | some i =>
      rw [List.filter_cons]
      simp only [hv, Option.isSome_some, if_true]
      have hstep : ∀ (tail : List Entry) (cur' : List String)
          (m' : List (String × Entry)) (evs' : List Event),
          discoverLoop oldIds (e :: tail) cur' m' evs' =
          discoverLoop oldIds tail (if i ∈ cur' then cur' else cur' ++ [i])
            (dictInsert m' i e)
            (if i ∈ oldIds then evs' else evs' ++ [Event.added i]) := by
        intro tail cur' m' evs'
        simp [discoverLoop, hv]
      rw [hstep, hstep, discoverLoop_filter_valid oldIds rest]

/-- C3: from registry {A, B} and fetched catalog {B, C} the cycle emits
exactly one "added C" and one "removed A" event and the registry ends as
exactly {B, C} (with B's record refreshed); and in general, after every
cycle, an id is in the registry exactly when it is among the ids of the
fetched catalog — no stale entries are merged in. -/
theorem c3_discovery_diff :
    discoverModels regAB [entryB2, entryC] =
      (⟨[("B", entryB2), ("C", entryC)], ["B", "C"]⟩,
       [.added "C", .removed "A"]) ∧
    (∀ (s : DState) (catalog : List Entry) (x : String),
      x ∈ (discoverModels s catalog).1.modelIds ↔
        x ∈ catalog.filterMap validId) := by
  refine ⟨by decide, fun s catalog x => ?_⟩
  show x ∈ (discoverLoop s.modelIds catalog [] s.models []).1 ↔ _
  rw [discoverLoop_cur_mem]
  simp

/-- C10: after every completed discovery cycle (`_discover_models`, hence
both the polling cycle and `force_discovery`) the key set of the models
map equals the model_ids set, provided it did before the cycle (as holds
from the empty initial registry); and catalog entries whose id is missing
(or empty, which is equally falsy under Python's `if not model_id`) are
skipped entirely — the cycle equals the cycle on the catalog with such
entries dropped, so they are never inserted and produce no events. -/
theorem c10_registry_key_invariant :
    (∀ (s : DState) (catalog : List Entry),
      (∀ x, x ∈ s.models.map Prod.fst ↔ x ∈ s.modelIds) →
      ∀ x, x ∈ (discoverModels s catalog).1.models.map Prod.fst ↔
        x ∈ (discoverModels s catalog).1.modelIds) ∧
    (∀ (s : DState) (catalog : List Entry),
      discoverModels s catalog =
        discoverModels s (catalog.filter (fun e => (validId e).isSome))) := by
  constructor
  · intro s catalog hinv x
    unfold discoverModels
    dsimp only
    rw [filter_keys_mem, discoverLoop_keys_mem]
    simp only [List.mem_filter, decide_eq_true_eq]
    rw [discoverLoop_cur_mem, hinv x]
    simp only [List.mem_nil_iff, false_or]
    tauto
  · intro s catalog
    unfold discoverModels
    rw [discoverLoop_filter_valid]

/-- Witness for C10: a cycle over registry {A, B} and a catalog holding a
fresh B, an id-less entry, and C, keeps the key sets equal (checked at
"C") and equals the cycle on the catalog with the id-less entry dropped. -/
theorem c10_witness :
    ("C" ∈ (discoverModels regAB [entryB2, ⟨none, 9⟩, entryC]).1.models.map
        Prod.fst ↔
      "C" ∈ (discoverModels regAB [entryB2, ⟨none, 9⟩, entryC]).1.modelIds) ∧
    discoverModels regAB [entryB2, ⟨none, 9⟩, entryC] =
      discoverModels regAB
        ([entryB2, ⟨none, 9⟩, entryC].filter (fun e => (validId e).isSome)) :=
  ⟨c10_registry_key_invariant.1 regAB [entryB2, ⟨none, 9⟩, entryC]
     (fun x => by simp [regAB]) "C",
   c10_registry_key_invariant.2 regAB [entryB2, ⟨none, 9⟩, entryC]⟩

/-! ## Router claim C4 -/

lemma getServiceForTool_none : ∀ (registry : List ServiceInfo)
    (toolName : String),
    (∀ si ∈ registry, ¬(si.healthy = true ∧ toolName ∈ si.tools)) →
    getServiceForTool registry toolName = none
  | [], _, _ => rfl
  | si :: rest, toolName, h => by
    show (if si.healthy = true ∧ toolName ∈ si.tools then some si.url
          else getServiceForTool rest toolName) = none
    rw [if_neg (h si (List.mem_cons_self si rest))]
    exact getServiceForTool_none rest toolName
      (fun s hs => h s (List.mem_cons_of_mem si hs))

lemma getServiceForTool_match : ∀ (pre : List ServiceInfo) (r : ServiceInfo)
    (post : List ServiceInfo) (toolName : String),
    (∀ si ∈ pre, ¬(si.healthy = true ∧ toolName ∈ si.tools)) →
    r.healthy = true → toolName ∈ r.tools →
    getServiceForTool (pre ++ r :: post) toolName = some r.url
  | [], r, post, toolName, _, hh, ht => by
    show (if r.healthy = true ∧ toolName ∈ r.tools then some r.url
          else getServiceForTool post toolName) = some r.url
    rw [if_pos ⟨hh, ht⟩]
  | si :: pre, r, post, toolName, hpre, hh, ht => by
    show (if si.healthy = true ∧ toolName ∈ si.tools then some si.url
          else getServiceForTool (pre ++ r :: post) toolName) = some r.url
    rw [if_neg (hpre si (List.mem_cons_self si pre))]
    exact getServiceForTool_match pre r post toolName
      (fun s hs => hpre s (List.mem_cons_of_mem si hs)) hh ht

/-- C4: for every registry in which no entry is both healthy and has the
tool in its catalog (the empty registry in particular), route answers the
service_not_found status; with the first healthy registry entry whose
catalog contains the tool, route forwards to
`{service_url}/mcp/tools/{tool_name}` under the 30s client timeout; and
the forward maps HTTP 200 to success carrying the body as result,
non-200 to service_error, a timeout to timeout, and a transport error to
forward_error. -/
theorem c4_router_lookup_and_mapping :
    (∀ (registry : List ServiceInfo) (toolName params : String)
       (respond : String → String → ForwardOutcome),
      (∀ si ∈ registry, ¬(si.healthy = true ∧ toolName ∈ si.tools)) →
      routeToolRequest registry toolName params respond =
        ⟨"service_not_found", none, none,
         some ("No service available for tool: " ++ toolName)⟩) ∧
    (∀ (pre : List ServiceInfo) (r : ServiceInfo) (post : List ServiceInfo)
       (toolName params : String) (respond : String → String → ForwardOutcome),
      (∀ si ∈ pre, ¬(si.healthy = true ∧ toolName ∈ si.tools)) →
      r.healthy = true → toolName ∈ r.tools →
      routeToolRequest (pre ++ r :: post) toolName params respond =
        forwardRequest r.url toolName params respond) ∧
    routerTimeoutSeconds = 30 ∧
    (∀ (u toolName params body : String)
       (respond : String → String → ForwardOutcome),
      (respond (targetUrl u toolName) params = .ok 200 body →
        forwardRequest u toolName params respond =
          ⟨"success", some body, some u, none⟩) ∧
      (∀ st : Nat, respond (targetUrl u toolName) params = .ok st body →
        st ≠ 200 →
        forwardRequest u toolName params respond =
          ⟨"service_error", none, some u,
           some ("Service returned " ++ toString st)⟩) ∧
      (respond (targetUrl u toolName) params = .timedOut →
        forwardRequest u toolName params respond =
          ⟨"timeout", none, some u, some "Service timeout"⟩) ∧
      (respond (targetUrl u toolName) params = .transportFailed →
        forwardRequest u toolName params respond =
          ⟨"forward_error", none, some u, some "Forward failed"⟩)) := by
  refine ⟨fun registry toolName params respond hnone => ?_,
          fun pre r post toolName params respond hpre hh ht => ?_,
          rfl,
          fun u toolName params body respond =>
            ⟨fun h => by simp [forwardRequest, h],
             fun st h hne => by simp [forwardRequest, h, hne],
             fun h => by simp [forwardRequest, h],
             fun h => by simp [forwardRequest, h]⟩⟩
  · unfold routeToolRequest
    rw [getServiceForTool_none registry toolName hnone]
  · unfold routeToolRequest
    rw [getServiceForTool_match pre r post toolName hpre hh ht]

/-- Witness for C4: the empty registry and a registry whose only entry
holds the tool but is unhealthy both answer service_not_found; in a
three-entry registry — first healthy entry lacking the tool, second
holding it but unhealthy, third healthy and owning it — the third is
chosen and a 200 response maps to success. -/
theorem c4_witness :
    routeToolRequest [] "x" "p" (fun _ _ => .ok 200 "r") =
      ⟨"service_not_found", none, none,
       some ("No service available for tool: " ++ "x")⟩ ∧
    routeToolRequest [⟨"u", ["x"], false⟩] "x" "p" (fun _ _ => .ok 200 "r") =
      ⟨"service_not_found", none, none,
       some ("No service available for tool: " ++ "x")⟩ ∧
    routeToolRequest
        [⟨"u1", ["y"], true⟩, ⟨"u2", ["x"], false⟩, ⟨"u3", ["x"], true⟩]
        "x" "p" (fun _ _ => .ok 200 "r") =
      forwardRequest "u3" "x" "p" (fun _ _ => .ok 200 "r") ∧
    forwardRequest "u3" "x" "p" (fun _ _ => .ok 200 "r") =
      ⟨"success", some "r", some "u3", none⟩ :=
  ⟨c4_router_lookup_and_mapping.1 [] "x" "p" (fun _ _ => .ok 200 "r")
     (by decide),
   c4_router_lookup_and_mapping.1 [⟨"u", ["x"], false⟩] "x" "p"
     (fun _ _ => .ok 200 "r") (by decide),
   c4_router_lookup_and_mapping.2.1
     [⟨"u1", ["y"], true⟩, ⟨"u2", ["x"], false⟩] ⟨"u3", ["x"], true⟩ []
     "x" "p" (fun _ _ => .ok 200 "r") (by decide) rfl (by decide),
   (c4_router_lookup_and_mapping.2.2.2 "u3" "x" "p" "r"
     (fun _ _ => .ok 200 "r")).1 rfl⟩

/-! ## Aggregator claim C5 -/

/-- C5 exhibit (code bug): `aggregate_responses` on empty input does
return the no_calls status, but on a single call it returns the fixed
placeholder dict of `_execute_single_call` — the aggregator consults no
router at all, contradicting the claim that the single call is forwarded
via the Router and its result returned unchanged. -/
theorem c5_single_call_placeholder :
    aggregateResponses [] =
      ⟨"no_calls", none, none, some "No service calls provided", []⟩ ∧
    aggregateResponses [⟨some "svc-a"⟩] =
      ⟨"success", some "Single call executed", some "svc-a", none, []⟩ ∧
    aggregateResponses [⟨some "svc-a"⟩] = executeSingleCall ⟨some "svc-a"⟩ :=
  ⟨rfl, rfl, rfl⟩

/-! ## Trend claim C6 -/

/-- Counterexample to C6 as stated: on five samples spanning 400s (50%
flat, then 60%) inside the 24h disk window, the code divides by the
in-window first-to-last sample span (400s) and multiplies by 3600
regardless of the window, giving 90 — not the claimed
(60−50)/86400×86400 = 10 of the per-day reading. -/
theorem c6_counterexample :
    calculateTrend fiveSamples 86400 400 = 90 ∧
    claimedTrend fiveSamples 86400 400 86400 = 10 ∧
    calculateTrend fiveSamples 86400 400 ≠
      claimedTrend fiveSamples 86400 400 86400 := by
  refine ⟨?_, ?_, ?_⟩ <;>
    norm_num [calculateTrend, claimedTrend, windowData, fiveSamples,
      minDataPoints, List.filter_cons]

/-- C6 as amended: the trend is (last value − first value among in-window
samples) divided by the time span between the first and last in-window
samples (not by the window length), multiplied by 3600 for all three
buffers — the 24h disk trend is computed per hour even though reported
per day; with fewer than 5 samples in the whole buffer the trend is 0 and
the memory-cleanup rule does not fire. -/
theorem c6_amended_trend_formula :
    (∀ (data : List (Int × ℚ)) (w now : Int), data.length < minDataPoints →
      calculateTrend data w now = 0) ∧
    (∀ (data : List (Int × ℚ)) (w now : Int),
      minDataPoints ≤ data.length →
      2 ≤ (windowData data w now).length →
      ((windowData data w now).map Prod.fst).getLastD 0 -
        ((windowData data w now).map Prod.fst).headD 0 ≠ 0 →
      calculateTrend data w now =
        (((windowData data w now).map Prod.snd).getLastD 0 -
         ((windowData data w now).map Prod.snd).headD 0) /
        ((((windowData data w now).map Prod.fst).getLastD 0 -
          ((windowData data w now).map Prod.fst).headD 0 : Int) : ℚ) * 3600) ∧
    (∀ (data : List (Int × ℚ)) (now : Int), data.length < minDataPoints →
      ¬ memoryCleanupTriggered data now) := by
  have hzero : ∀ (data : List (Int × ℚ)) (w now : Int),
      data.length < minDataPoints → calculateTrend data w now = 0 := by
    intro data w now h
    unfold calculateTrend
    rw [if_pos h]
  refine ⟨hzero, ?_, ?_⟩
  · intro data w now h5 h2 hspan
    unfold calculateTrend
    rw [if_neg (not_lt.mpr h5), if_neg (not_lt.mpr h2)]
    dsimp only
    rw [if_neg (by rw [List.length_map]; exact not_lt.mpr h2), if_neg hspan]
  · intro data now h
    unfold memoryCleanupTriggered
    rw [hzero data 3600 now h]
    norm_num [memoryGrowthThreshold]

/-- Witness for C6 as amended, on the five 400s-spanning samples and a
single-sample buffer. -/
theorem c6_amended_witness :
    minDataPoints ≤ fiveSamples.length ∧
    2 ≤ (windowData fiveSamples 86400 400).length ∧
    calculateTrend fiveSamples 86400 400 =
      (((windowData fiveSamples 86400 400).map Prod.snd).getLastD 0 -
       ((windowData fiveSamples 86400 400).map Prod.snd).headD 0) /
      ((((windowData fiveSamples 86400 400).map Prod.fst).getLastD 0 -
        ((windowData fiveSamples 86400 400).map Prod.fst).headD 0 : Int) : ℚ)
        * 3600 ∧
    ¬ memoryCleanupTriggered [((0 : Int), (50 : ℚ))] 400 :=
  ⟨by decide, by decide,
   c6_amended_trend_formula.2.1 fiveSamples 86400 400 (by decide) (by decide)
     (by decide),
   c6_amended_trend_formula.2.2 [((0 : Int), (50 : ℚ))] 400 (by decide)⟩

/-! ## Recovery-manager claim C7 -/

/-- Counterexample to C7 as stated: a fresh recovery manager (last attempt
time 0) called at t = 30 is inside the 60s cooldown; `handle_error`
returns without classifying or forwarding anything, leaving the
predictive-maintenance error log empty. -/
theorem c7_counterexample :
    (30 : Int) - (⟨0, 0, []⟩ : RecState).lastTime < recoveryCooldown ∧
    (handleError ⟨0, 0, []⟩ 30 true "upstream timeout" true).2.errorLog = [] := by
  decide

/-- C7 as amended: the classified pattern is appended to the predictive
maintenance error log exactly when the call passes both the cooldown and
the attempt-limit guards (i.e. when a recovery attempt is actually made);
a call short-circuited by either guard leaves the whole recovery state,
error log included, untouched. -/
theorem c7_amended_error_forwarding :
    (∀ (st : RecState) (now : Int) (isNetworkErr : Bool) (msg : String)
       (strategyOk : Bool),
      recoveryCooldown ≤ now - st.lastTime →
      st.attempts < maxRecoveryAttempts →
      (handleError st now isNetworkErr msg strategyOk).2.errorLog =
        st.errorLog ++ [(now, classifyError isNetworkErr msg)]) ∧
    (∀ (st : RecState) (now : Int) (isNetworkErr : Bool) (msg : String)
       (strategyOk : Bool),
      now - st.lastTime < recoveryCooldown ∨
        maxRecoveryAttempts ≤ st.attempts →
      (handleError st now isNetworkErr msg strategyOk).2 = st) := by
  constructor
  · intro st now b msg ok h1 h2
    unfold handleError
    rw [if_neg (not_lt.mpr h1), if_neg (not_le.mpr h2)]
    dsimp only
    cases ok <;> rfl
  · intro st now b msg ok h
    by_cases hc : now - st.lastTime < recoveryCooldown
    · unfold handleError
      rw [if_pos hc]
    · unfold handleError
      rcases h with h | h
      · exact absurd h hc
      · rw [if_neg hc, if_pos h]

/-- Witness for C7 as amended: a first call at t = 60 forwards its
classified pattern; a call with the attempt limit reached changes
nothing. -/
theorem c7_amended_witness :
    recoveryCooldown ≤ (60 : Int) - (⟨0, 0, []⟩ : RecState).lastTime ∧
    (⟨0, 0, []⟩ : RecState).attempts < maxRecoveryAttempts ∧
    (handleError ⟨0, 0, []⟩ 60 true "Connection refused by host" true).2.errorLog
      = [] ++ [((60 : Int), classifyError true "Connection refused by host")] ∧
    (handleError ⟨5, 0, []⟩ 200 true "upstream timeout" true).2 =
      (⟨5, 0, []⟩ : RecState) :=
  ⟨by decide, by decide,
   c7_amended_error_forwarding.1 ⟨0, 0, []⟩ 60 true
     "Connection refused by host" true (by decide) (by decide),
   c7_amended_error_forwarding.2 ⟨5, 0, []⟩ 200 true "upstream timeout" true
     (Or.inr (by decide))⟩

/-! ## Poll-backoff claim C8 -/

/-- Counterexample to C8 as stated: base interval 30s, three consecutive
failing cycles, but the recovery attempt run at the third failure
succeeds — the next wait is the base 30s, not min(2×30, 300) = 60s. -/
theorem c8_counterexample :
    pollRun 30 0 [(false, false), (false, false), (false, true)] =
      [30, 30, 30] ∧
    (30 : Nat) ≠ min (2 * 30) 300 := by
  decide

/-- C8 as amended: when a cycle fails, bringing the consecutive-failure
count to ≥3, AND the recovery attempt then also fails, the total wait
before the next cycle is min(2×base, 300) plus any throttle delay (for
bases ≤ 300s; for that wait only — the failure count is kept); if instead
the recovery succeeds the counter resets and the wait is the base again;
and any successful cycle resets the counter and restores the base wait. -/
theorem c8_amended_extended_backoff :
    (∀ (base cf throttle : Nat), base ≤ 300 → 2 ≤ cf →
      pollIter base cf false false throttle =
        (cf + 1, min (2 * base) 300 + throttle)) ∧
    (∀ (base cf throttle : Nat), 2 ≤ cf →
      pollIter base cf false true throttle = (0, base + throttle)) ∧
    (∀ (base cf throttle : Nat) (recoveryOk : Bool),
      pollIter base cf true recoveryOk throttle = (0, base + throttle)) := by
  refine ⟨fun base cf throttle hbase hcf => ?_,
          fun base cf throttle hcf => ?_,
          fun base cf throttle recoveryOk => rfl⟩
  · show (if 3 ≤ cf + 1 then
        ((cf + 1 : Nat), min (2 * base) 300 - base + (base + throttle))
      else (cf + 1, base + throttle)) = _
    rw [if_pos (by omega)]
    have harith : min (2 * base) 300 - base + (base + throttle) =
        min (2 * base) 300 + throttle := by omega
    rw [harith]
  · show (if 3 ≤ cf + 1 then ((0 : Nat), base + throttle)
      else (cf + 1, base + throttle)) = _
    rw [if_pos (by omega)]

/-- Witness for C8 as amended at base 30s, two prior failures. -/
theorem c8_amended_witness :
    (30 : Nat) ≤ 300 ∧ (2 : Nat) ≤ 2 ∧
    pollIter 30 2 false false 0 = (3, min (2 * 30) 300 + 0) ∧
    pollIter 30 2 false true 0 = (0, 30 + 0) ∧
    pollIter 30 7 true false 0 = (0, 30 + 0) :=
  ⟨by decide, by decide,
   c8_amended_extended_backoff.1 30 2 0 (by decide) (by decide),
   c8_amended_extended_backoff.2.1 30 2 0 (by decide),
   c8_amended_extended_backoff.2.2 30 7 0 false⟩

end LlmHub

